import Mathlib

/-!
Verification development for the second-brain note application.

The embedding follows the TypeScript sources:
  - src/types/index.ts         (record shapes)
  - src/utils/storage.ts       (local store over localStorage)
  - src/services/dataService.ts (synchronization facade: dual writes,
    soft delete with undo, category conversion, tombstone sweep)
  - src/utils/dataMigration.ts (one-time local-to-remote migration)

Modelling conventions:
  - ids are Nat; crypto.randomUUID is modelled by a counter nextId held in
    the facade state, so a fresh id is one the state has never produced.
  - timestamps (Date.now, new Date()) are Nat; every operation that reads
    the clock takes the current instant now as an explicit argument.
  - each remote (Firestore) call an operation performs is given a Boolean
    knob telling whether that call resolves or rejects; a rejected await
    outside a try block makes the whole operation reject. Operations
    return the poststate paired with an Except value: Except.ok models a
    promise that resolves, Except.error models a rejected promise.
  - the remote document store contents are not tracked, only the outcome
    of each remote call, since the claims under study concern the local
    collections, the tombstone map and promise resolution; the migration
    component additionally records the sequence of remote pushes it emits.
-/

namespace SecondBrain

/-- Model of the JS String.prototype.trim primitive used on content by
the add operations: strip leading and trailing whitespace. Defined over
the character list so that concrete instances reduce in the kernel. -/
def jsTrim (s : String) : String :=
  String.mk (((s.data.dropWhile Char.isWhitespace).reverse.dropWhile Char.isWhitespace).reverse)

/-- Priority values of a Todo (types/index.ts). -/
inductive Priority where
  | high
  | medium
  | low
deriving DecidableEq, Repr

/-- Thought record (types/index.ts). -/
structure Thought where
  id : Nat
  content : String
  createdAt : Nat
  tags : List String
deriving DecidableEq, Repr

/-- Todo record (types/index.ts). The googleEventId field is absent from
the TypeScript interface but is written by dataService.updateTodo via the
partial-update merge, so it is part of the stored shape. -/
structure Todo where
  id : Nat
  content : String
  isCompleted : Bool
  priority : Priority
  createdAt : Nat
  dueDate : Option Nat
  googleEventId : Option String
deriving DecidableEq, Repr

/-- RadiologyNote record (types/index.ts). -/
structure RadiologyNote where
  id : Nat
  content : String
  tags : List String
  createdAt : Nat
deriving DecidableEq, Repr

/-- Investment record (types/index.ts). -/
structure Investment where
  id : Nat
  content : String
  createdAt : Nat
  tags : List String
deriving DecidableEq, Repr

/-- Partial Todo update object, as passed to storage.updateTodo and
dataService.updateTodo. A field set to none is absent from the object;
dueDate and googleEventId are doubly optional because the property can be
present with an undefined or empty value (hasOwnProperty distinguishes
presence from truthiness). Callers never update id or createdAt, so those
fields are not represented. -/
structure TodoUpdates where
  content : Option String := none
  isCompleted : Option Bool := none
  priority : Option Priority := none
  dueDate : Option (Option Nat) := none
  googleEventId : Option (Option String) := none
deriving DecidableEq, Repr

/-- Merge of a partial update into a Todo, as done by the object spread
in storage.updateTodo (todos[index] = { ...todos[index], ...updates }). -/
def applyTodoUpdates (t : Todo) (u : TodoUpdates) : Todo :=
  { t with
    content := u.content.getD t.content
    isCompleted := u.isCompleted.getD t.isCompleted
    priority := u.priority.getD t.priority
    dueDate := u.dueDate.getD t.dueDate
    googleEventId := u.googleEventId.getD t.googleEventId }

/-- Partial Thought update object (content and tags are the mutable fields). -/
structure ThoughtUpdates where
  content : Option String := none
  tags : Option (List String) := none
deriving DecidableEq, Repr

def applyThoughtUpdates (t : Thought) (u : ThoughtUpdates) : Thought :=
  { t with
    content := u.content.getD t.content
    tags := u.tags.getD t.tags }

/-- Partial RadiologyNote update object. -/
structure RadiologyNoteUpdates where
  content : Option String := none
  tags : Option (List String) := none
deriving DecidableEq, Repr

def applyRadiologyNoteUpdates (n : RadiologyNote) (u : RadiologyNoteUpdates) :
    RadiologyNote :=
  { n with
    content := u.content.getD n.content
    tags := u.tags.getD n.tags }

/-- Partial Investment update object. -/
structure InvestmentUpdates where
  content : Option String := none
  tags : Option (List String) := none
deriving DecidableEq, Repr

def applyInvestmentUpdates (i : Investment) (u : InvestmentUpdates) : Investment :=
  { i with
    content := u.content.getD i.content
    tags := u.tags.getD i.tags }

/-- Replacement of the first list element satisfying p by its image under f,
matching the findIndex-then-assign pattern of storage.updateTodo. -/
def updateFirst (p : α → Bool) (f : α → α) : List α → List α
  | [] => []
  | x :: xs => if p x then f x :: xs else x :: updateFirst p f xs

/-- The four local collections persisted by src/utils/storage.ts, viewed
after JSON decoding (the well-typed layer that storage maintains; the raw
persistence layer is modelled separately below for the parse claims). -/
structure LocalStore where
  thoughts : List Thought
  todos : List Todo
  radiologyNotes : List RadiologyNote
  investments : List Investment
deriving DecidableEq, Repr

def LocalStore.empty : LocalStore := ⟨[], [], [], []⟩

namespace storage

/-- storage.addThought: thoughts.unshift(thought); save. -/
def addThought (s : LocalStore) (t : Thought) : LocalStore :=
  { s with thoughts := t :: s.thoughts }

/-- storage.deleteThought: filter out the id; save. -/
def deleteThought (s : LocalStore) (id : Nat) : LocalStore :=
  { s with thoughts := s.thoughts.filter (fun t => t.id ≠ id) }

/-- storage.addTodo (the record-argument revision used by dataService). -/
def addTodo (s : LocalStore) (t : Todo) : LocalStore :=
  { s with todos := t :: s.todos }

/-- storage.updateTodo: merge the partial update into the first record
with the given id, if any. -/
def updateTodo (s : LocalStore) (id : Nat) (u : TodoUpdates) : LocalStore :=
  { s with todos := updateFirst (fun t => t.id == id) (fun t => applyTodoUpdates t u) s.todos }

/-- storage.deleteTodo. -/
def deleteTodo (s : LocalStore) (id : Nat) : LocalStore :=
  { s with todos := s.todos.filter (fun t => t.id ≠ id) }

/-- storage.addRadiologyNote. -/
def addRadiologyNote (s : LocalStore) (n : RadiologyNote) : LocalStore :=
  { s with radiologyNotes := n :: s.radiologyNotes }

/-- storage.deleteRadiologyNote. -/
def deleteRadiologyNote (s : LocalStore) (id : Nat) : LocalStore :=
  { s with radiologyNotes := s.radiologyNotes.filter (fun n => n.id ≠ id) }

/-- storage.addInvestment. -/
def addInvestment (s : LocalStore) (i : Investment) : LocalStore :=
  { s with investments := i :: s.investments }

/-- storage.deleteInvestment. -/
def deleteInvestment (s : LocalStore) (id : Nat) : LocalStore :=
  { s with investments := s.investments.filter (fun i => i.id ≠ id) }

/-- Modelled from the spec: storage.updateThought is invoked by
dataService.updateThought but its definition is not among the provided
storage.ts revisions; the spec contract update(kind, id, partialFields)
and the sibling storage.updateTodo fix its behaviour as the merge of the
partial fields into the record with the given id. -/
def updateThought (s : LocalStore) (id : Nat) (u : ThoughtUpdates) : LocalStore :=
  { s with thoughts := updateFirst (fun t => t.id == id) (fun t => applyThoughtUpdates t u) s.thoughts }

/-- Modelled from the spec: storage.updateRadiologyNote, analogous to
storage.updateTodo (see updateThought above). -/
def updateRadiologyNote (s : LocalStore) (id : Nat) (u : RadiologyNoteUpdates) : LocalStore :=
  { s with radiologyNotes := updateFirst (fun n => n.id == id) (fun n => applyRadiologyNoteUpdates n u) s.radiologyNotes }

/-- Modelled from the spec: storage.updateInvestment, analogous to
storage.updateTodo (see updateThought above). -/
def updateInvestment (s : LocalStore) (id : Nat) (u : InvestmentUpdates) : LocalStore :=
  { s with investments := updateFirst (fun i => i.id == id) (fun i => applyInvestmentUpdates i u) s.investments }

end storage

/-- Boolean test that a list of timestamps is in nonincreasing order
(newest first). -/
def descending : List Nat → Bool
  | [] => true
  | [_] => true
  | a :: b :: r => (b ≤ a : Bool) && descending (b :: r)

/-!
Raw persistence layer of storage.ts read operations.

getThoughts and getRadiologyNotes read a raw string from localStorage and
run JSON.parse followed by a map that only rewrites the createdAt field
(a spread keeps every other property as persisted). JSON.parse is a
platform primitive, so a persisted string is embedded by its parse
outcome: absent cell, text that is not JSON (JSON.parse raises a
SyntaxError), JSON that is not an array (the subsequent .map raises a
TypeError), or an array of entries. An array entry is either the JSON
null literal — on which the property access thought.createdAt inside the
map body throws a TypeError — or any other JSON value, embedded as an
object whose fields may each be absent (property access on non-objects
such as numbers yields undefined without throwing, so they behave like
objects with every field absent).
-/

/-- An object-like entry of a persisted collection array as JSON.parse
delivers it: every field may be absent. createdAt is recorded as the
timestamp the persisted value denotes, or none when the field is missing
or does not denote a valid date (new Date then yields an Invalid Date). -/
structure RawRecord where
  id : Option String := none
  content : Option String := none
  createdAt : Option Nat := none
  tags : Option (List String) := none
deriving DecidableEq, Repr

/-- An element of a persisted JSON array: the null literal, on which
property access throws, or a non-null value, on which property access
works (possibly yielding undefined for every field). -/
inductive RawEntry where
  | nullEntry
  | record (r : RawRecord)
deriving DecidableEq, Repr

/-- Parse outcome of the raw string persisted under a collection key. -/
inductive PersistedValue where
  | absent
  | notJson
  | nonArrayJson
  | array (entries : List RawEntry)
deriving DecidableEq, Repr

/-- The map body of storage.getThoughts on one object entry:
thought mapsto ( ...thought, createdAt: new Date(thought.createdAt) ).
The spread keeps every field; only createdAt is rewritten, and in this
embedding the rewrite is the identity on the recorded denotation. -/
def reviveRecord (e : RawRecord) : RawRecord :=
  { e with createdAt := e.createdAt }

/-- The map of storage.getThoughts along the parsed array. An object
entry is revived and kept — there is no validation and no filtering — but
a null entry makes the map body throw a TypeError (reading createdAt of
null), which aborts the whole read; the map throws at the first null it
reaches, which is observably the same as raising whenever some entry is
null, since the thrown message does not depend on the position. -/
def reviveEntries : List RawEntry → Except String (List RawRecord)
  | [] => .ok []
  | .nullEntry :: _ => .error "TypeError: Cannot read properties of null"
  | .record r :: rest => (reviveEntries rest).map (fun l => reviveRecord r :: l)

namespace storageRaw

/-- storage.getThoughts at the persistence layer. An absent cell yields
the empty list; a cell whose string is not a JSON array raises; an array
cell is mapped entrywise with no filtering of malformed object entries,
raising only when an entry is the null literal. -/
def getThoughts : PersistedValue → Except String (List RawRecord)
  | .absent => .ok []
  | .notJson => .error "SyntaxError: Unexpected token in JSON"
  | .nonArrayJson => .error "TypeError: thoughts.map is not a function"
  | .array es => reviveEntries es

/-- storage.getRadiologyNotes at the persistence layer; same shape as
getThoughts (lines 71 to 76 of storage.ts). -/
def getRadiologyNotes : PersistedValue → Except String (List RawRecord)
  | .absent => .ok []
  | .notJson => .error "SyntaxError: Unexpected token in JSON"
  | .nonArrayJson => .error "TypeError: notes.map is not a function"
  | .array es => reviveEntries es

end storageRaw

/-!
Synchronization facade (src/services/dataService.ts, first revision,
the one whose line numbers the specification cites; the revisions that
follow the separator markers in the file are superseded).
-/

/-- Payload of a tombstone entry: the captured record together with the
type discriminator string stored next to it. The constructor plays the
role of the type field, which softDelete always sets consistently with
the payload. -/
inductive ItemData where
  | thought (t : Thought)
  | todo (t : Todo)
  | radiology (n : RadiologyNote)
  | investment (i : Investment)
deriving DecidableEq, Repr

/-- A value of the deletedItems map: captured data plus Date.now() at
capture time. -/
structure DeletedItem where
  data : ItemData
  timestamp : Nat
deriving DecidableEq, Repr

/-- JS Map.get on an association list keyed by id. -/
def mapGet (m : List (Nat × DeletedItem)) (k : Nat) : Option DeletedItem :=
  (m.find? (fun p => p.1 == k)).map (·.2)

/-- JS Map.set: bind k, displacing any previous binding of k. -/
def mapSet (m : List (Nat × DeletedItem)) (k : Nat) (v : DeletedItem) :
    List (Nat × DeletedItem) :=
  (k, v) :: m.filter (fun p => p.1 ≠ k)

/-- JS Map.delete. -/
def mapDelete (m : List (Nat × DeletedItem)) (k : Nat) :
    List (Nat × DeletedItem) :=
  m.filter (fun p => p.1 ≠ k)

/-- State of the DataService singleton: the local store it writes
through, the in-memory tombstone map, whether a FirestoreService is
attached (initializeWithUser ran), the navigator online flag, and the
id counter modelling crypto.randomUUID freshness. -/
structure FacadeState where
  store : LocalStore
  deletedItems : List (Nat × DeletedItem)
  hasFirestore : Bool
  isOnline : Bool
  nextId : Nat
deriving DecidableEq, Repr

/-- Result of an async facade operation: the poststate (JS mutations
survive a rejected promise) together with resolution or rejection. -/
abbrev OpResult := FacadeState × Except String Unit

namespace DataService

/-- dataService.addThought. The remote write sits in a try block, so the
knob rAddOk never influences the outcome: the promise always resolves.
The new record gets a fresh id and createdAt now, and content is
trimmed. -/
def addThought (content : String) (now : Nat) (_rAddOk : Bool)
    (s : FacadeState) : OpResult :=
  let newThought : Thought :=
    { id := s.nextId, content := jsTrim content, createdAt := now, tags := [] }
  ({ s with store := storage.addThought s.store newThought, nextId := s.nextId + 1 },
   .ok ())

/-- dataService.addTodo. Local write first; the whole remote block
(create, then optionally calendar event plus a googleEventId update that
also lands locally through this.updateTodo) is inside one try, so the
promise always resolves. When the remote create succeeds, Google is
signed in and a due date was given, the inner this.updateTodo call also
merges the created event id into the local record. -/
def addTodo (content : String) (dueDate : Option Nat) (now : Nat)
    (rAddOk : Bool) (gSignedIn : Bool) (evId : String)
    (s : FacadeState) : OpResult :=
  let newTodo : Todo :=
    { id := s.nextId, content := jsTrim content, isCompleted := false,
      priority := .medium, createdAt := now, dueDate := dueDate,
      googleEventId := none }
  let s1 : FacadeState :=
    { s with store := storage.addTodo s.store newTodo, nextId := s.nextId + 1 }
  let evUpdate : TodoUpdates := { googleEventId := some (some evId) }
  if s1.hasFirestore && s1.isOnline && rAddOk && gSignedIn && dueDate.isSome then
    ({ s1 with store := storage.updateTodo s1.store newTodo.id evUpdate }, .ok ())
  else
    (s1, .ok ())

/-- dataService.addRadiologyNote; remote write swallowed by try. -/
def addRadiologyNote (content : String) (tags : List String) (now : Nat)
    (_rAddOk : Bool) (s : FacadeState) : OpResult :=
  let newNote : RadiologyNote :=
    { id := s.nextId, content := jsTrim content, tags := tags, createdAt := now }
  ({ s with store := storage.addRadiologyNote s.store newNote, nextId := s.nextId + 1 },
   .ok ())

/-- dataService.addInvestment; remote write swallowed by try. -/
def addInvestment (content : String) (now : Nat) (_rAddOk : Bool)
    (s : FacadeState) : OpResult :=
  let newInvestment : Investment :=
    { id := s.nextId, content := jsTrim content, createdAt := now, tags := [] }
  ({ s with store := storage.addInvestment s.store newInvestment, nextId := s.nextId + 1 },
   .ok ())

/-- dataService.deleteThought. The local delete always runs; the remote
delete is awaited with no try block and no isOnline guard, so when a
FirestoreService is attached and the remote call rejects, the whole
operation rejects (after the local deletion already took effect). -/
def deleteThought (id : Nat) (rDelOk : Bool) (s : FacadeState) : OpResult :=
  let s1 : FacadeState := { s with store := storage.deleteThought s.store id }
  if s1.hasFirestore then
    (s1, if rDelOk then .ok () else .error "remote deleteThought rejected")
  else
    (s1, .ok ())

/-- dataService.deleteTodo; same unguarded remote await as deleteThought. -/
def deleteTodo (id : Nat) (rDelOk : Bool) (s : FacadeState) : OpResult :=
  let s1 : FacadeState := { s with store := storage.deleteTodo s.store id }
  if s1.hasFirestore then
    (s1, if rDelOk then .ok () else .error "remote deleteTodo rejected")
  else
    (s1, .ok ())

/-- dataService.deleteRadiologyNote; same unguarded remote await. -/
def deleteRadiologyNote (id : Nat) (rDelOk : Bool) (s : FacadeState) : OpResult :=
  let s1 : FacadeState := { s with store := storage.deleteRadiologyNote s.store id }
  if s1.hasFirestore then
    (s1, if rDelOk then .ok () else .error "remote deleteRadiologyNote rejected")
  else
    (s1, .ok ())

/-- dataService.deleteInvestment; same unguarded remote await. -/
def deleteInvestment (id : Nat) (rDelOk : Bool) (s : FacadeState) : OpResult :=
  let s1 : FacadeState := { s with store := storage.deleteInvestment s.store id }
  if s1.hasFirestore then
    (s1, if rDelOk then .ok () else .error "remote deleteInvestment rejected")
  else
    (s1, .ok ())

/-- dataService.updateThought; the remote mirror sits in a try block and
is additionally guarded by isOnline, so the promise always resolves. -/
def updateThought (id : Nat) (u : ThoughtUpdates) (_rUpdOk : Bool)
    (s : FacadeState) : OpResult :=
  ({ s with store := storage.updateThought s.store id u }, .ok ())

/-- dataService.updateRadiologyNote; mirrored inside a try, always resolves. -/
def updateRadiologyNote (id : Nat) (u : RadiologyNoteUpdates) (_rUpdOk : Bool)
    (s : FacadeState) : OpResult :=
  ({ s with store := storage.updateRadiologyNote s.store id u }, .ok ())

/-- dataService.updateInvestment; mirrored inside a try, always resolves. -/
def updateInvestment (id : Nat) (u : InvestmentUpdates) (_rUpdOk : Bool)
    (s : FacadeState) : OpResult :=
  ({ s with store := storage.updateInvestment s.store id u }, .ok ())

/-- dataService.updateTodo. Local merge first. With a FirestoreService
attached: when Google is signed in and the update carries a dueDate
property, the authoritative remote copy is fetched by an await that sits
outside any try (a rejected fetch rejects the whole call); the calendar
three-way branch that follows only mutates the payload sent to the
remote mirror and swallows its own errors, so it does not affect the
local store or the outcome and is not tracked further. The final remote
mirror await is also outside any try, so its failure rejects the call.
rGet is the outcome of getTodoById (error, null, or the remote record
data, whose value is irrelevant here); rUpdOk is the outcome of the
remote updateTodo mirror. -/
def updateTodo (id : Nat) (u : TodoUpdates) (gSignedIn : Bool)
    (rGet : Except Unit (Option Todo)) (rUpdOk : Bool)
    (s : FacadeState) : OpResult :=
  let s1 : FacadeState := { s with store := storage.updateTodo s.store id u }
  if s1.hasFirestore then
    if gSignedIn && u.dueDate.isSome then
      match rGet with
      | .error _ => (s1, .error "remote getTodoById rejected")
      | .ok _ =>
        (s1, if rUpdOk then .ok () else .error "remote updateTodo rejected")
    else
      (s1, if rUpdOk then .ok () else .error "remote updateTodo rejected")
  else
    (s1, .ok ())

/-- dataService.softDeleteThought. Finds the record (raising if absent,
before any mutation), captures it into deletedItems keyed by id with the
capture instant, then runs deleteThought, whose unguarded remote await
can reject the whole call. On resolution the caller receives the undo
closure, which captures only the id and is modelled by undoThought. -/
def softDeleteThought (id : Nat) (now : Nat) (rDelOk : Bool)
    (s : FacadeState) : OpResult :=
  match s.store.thoughts.find? (fun t => t.id == id) with
  | none => (s, .error "Thought not found")
  | some t =>
    let s1 : FacadeState :=
      { s with deletedItems := mapSet s.deletedItems id ⟨.thought t, now⟩ }
    deleteThought id rDelOk s1

/-- The undo closure returned by softDeleteThought, invoked later with
the captured id. If the tombstone is still present and carries the
thought tag, the captured record is unshifted back into the local store,
the remote re-add is attempted inside a try (failure swallowed), and the
tombstone is consumed; otherwise nothing happens. The closure itself
always resolves. -/
def undoThought (id : Nat) (_rAddOk : Bool) (s : FacadeState) : FacadeState :=
  match mapGet s.deletedItems id with
  | some ⟨.thought t, _⟩ =>
    { s with store := storage.addThought s.store t,
             deletedItems := mapDelete s.deletedItems id }
  | _ => s

/-- dataService.softDeleteTodo; shape of softDeleteThought. -/
def softDeleteTodo (id : Nat) (now : Nat) (rDelOk : Bool)
    (s : FacadeState) : OpResult :=
  match s.store.todos.find? (fun t => t.id == id) with
  | none => (s, .error "Todo not found")
  | some t =>
    let s1 : FacadeState :=
      { s with deletedItems := mapSet s.deletedItems id ⟨.todo t, now⟩ }
    deleteTodo id rDelOk s1

/-- The undo closure returned by softDeleteTodo. -/
def undoTodo (id : Nat) (_rAddOk : Bool) (s : FacadeState) : FacadeState :=
  match mapGet s.deletedItems id with
  | some ⟨.todo t, _⟩ =>
    { s with store := storage.addTodo s.store t,
             deletedItems := mapDelete s.deletedItems id }
  | _ => s

/-- dataService.softDeleteRadiologyNote; shape of softDeleteThought. -/
def softDeleteRadiologyNote (id : Nat) (now : Nat) (rDelOk : Bool)
    (s : FacadeState) : OpResult :=
  match s.store.radiologyNotes.find? (fun n => n.id == id) with
  | none => (s, .error "Radiology note not found")
  | some n =>
    let s1 : FacadeState :=
      { s with deletedItems := mapSet s.deletedItems id ⟨.radiology n, now⟩ }
    deleteRadiologyNote id rDelOk s1

/-- The undo closure returned by softDeleteRadiologyNote. -/
def undoRadiologyNote (id : Nat) (_rAddOk : Bool) (s : FacadeState) : FacadeState :=
  match mapGet s.deletedItems id with
  | some ⟨.radiology n, _⟩ =>
    { s with store := storage.addRadiologyNote s.store n,
             deletedItems := mapDelete s.deletedItems id }
  | _ => s

/-- dataService.softDeleteInvestment; shape of softDeleteThought. -/
def softDeleteInvestment (id : Nat) (now : Nat) (rDelOk : Bool)
    (s : FacadeState) : OpResult :=
  match s.store.investments.find? (fun i => i.id == id) with
  | none => (s, .error "Investment not found")
  | some i =>
    let s1 : FacadeState :=
      { s with deletedItems := mapSet s.deletedItems id ⟨.investment i, now⟩ }
    deleteInvestment id rDelOk s1

/-- The undo closure returned by softDeleteInvestment. -/
def undoInvestment (id : Nat) (_rAddOk : Bool) (s : FacadeState) : FacadeState :=
  match mapGet s.deletedItems id with
  | some ⟨.investment i, _⟩ =>
    { s with store := storage.addInvestment s.store i,
             deletedItems := mapDelete s.deletedItems id }
  | _ => s

/-- Source kinds accepted by convertToThought. -/
inductive ThoughtSource where
  | todo
  | investment
  | radiology
deriving DecidableEq, Repr

/-- Source kinds accepted by convertToTodo. -/
inductive TodoSource where
  | thought
  | investment
  | radiology
deriving DecidableEq, Repr

/-- Source kinds accepted by convertToInvestment. -/
inductive InvestmentSource where
  | thought
  | todo
  | radiology
deriving DecidableEq, Repr

/-- Source kinds accepted by convertToRadiology. -/
inductive RadiologySource where
  | thought
  | todo
  | investment
deriving DecidableEq, Repr

/-- dataService.convertToThought: look the id up in the named source
collection; when absent the whole call is a no-op that resolves. When
present, hard-delete from the source (an unguarded await whose remote
rejection aborts the call after the local delete), then addThought with
the source content (always resolves). -/
def convertToThought (id : Nat) (fromType : ThoughtSource) (now : Nat)
    (rDelOk rAddOk : Bool) (s : FacadeState) : OpResult :=
  match fromType with
  | .todo =>
    match s.store.todos.find? (fun t => t.id == id) with
    | none => (s, .ok ())
    | some src =>
      match deleteTodo id rDelOk s with
      | (s1, .error e) => (s1, .error e)
      | (s1, .ok _) => addThought src.content now rAddOk s1
  | .investment =>
    match s.store.investments.find? (fun i => i.id == id) with
    | none => (s, .ok ())
    | some src =>
      match deleteInvestment id rDelOk s with
      | (s1, .error e) => (s1, .error e)
      | (s1, .ok _) => addThought src.content now rAddOk s1
  | .radiology =>
    match s.store.radiologyNotes.find? (fun n => n.id == id) with
    | none => (s, .ok ())
    | some src =>
      match deleteRadiologyNote id rDelOk s with
      | (s1, .error e) => (s1, .error e)
      | (s1, .ok _) => addThought src.content now rAddOk s1

/-- dataService.convertToTodo; the recreate step is addTodo with content
only, hence no due date and no calendar interaction. -/
def convertToTodo (id : Nat) (fromType : TodoSource) (now : Nat)
    (rDelOk rAddOk : Bool) (gSignedIn : Bool) (s : FacadeState) : OpResult :=
  match fromType with
  | .thought =>
    match s.store.thoughts.find? (fun t => t.id == id) with
    | none => (s, .ok ())
    | some src =>
      match deleteThought id rDelOk s with
      | (s1, .error e) => (s1, .error e)
      | (s1, .ok _) => addTodo src.content none now rAddOk gSignedIn "" s1
  | .investment =>
    match s.store.investments.find? (fun i => i.id == id) with
    | none => (s, .ok ())
    | some src =>
      match deleteInvestment id rDelOk s with
      | (s1, .error e) => (s1, .error e)
      | (s1, .ok _) => addTodo src.content none now rAddOk gSignedIn "" s1
  | .radiology =>
    match s.store.radiologyNotes.find? (fun n => n.id == id) with
    | none => (s, .ok ())
    | some src =>
      match deleteRadiologyNote id rDelOk s with
      | (s1, .error e) => (s1, .error e)
      | (s1, .ok _) => addTodo src.content none now rAddOk gSignedIn "" s1

/-- dataService.convertToInvestment. -/
def convertToInvestment (id : Nat) (fromType : InvestmentSource) (now : Nat)
    (rDelOk rAddOk : Bool) (s : FacadeState) : OpResult :=
  match fromType with
  | .thought =>
    match s.store.thoughts.find? (fun t => t.id == id) with
    | none => (s, .ok ())
    | some src =>
      match deleteThought id rDelOk s with
      | (s1, .error e) => (s1, .error e)
      | (s1, .ok _) => addInvestment src.content now rAddOk s1
  | .todo =>
    match s.store.todos.find? (fun t => t.id == id) with
    | none => (s, .ok ())
    | some src =>
      match deleteTodo id rDelOk s with
      | (s1, .error e) => (s1, .error e)
      | (s1, .ok _) => addInvestment src.content now rAddOk s1
  | .radiology =>
    match s.store.radiologyNotes.find? (fun n => n.id == id) with
    | none => (s, .ok ())
    | some src =>
      match deleteRadiologyNote id rDelOk s with
      | (s1, .error e) => (s1, .error e)
      | (s1, .ok _) => addInvestment src.content now rAddOk s1

/-- dataService.convertToRadiology; the recreated note gets the fixed
tag list containing the rad marker. -/
def convertToRadiology (id : Nat) (fromType : RadiologySource) (now : Nat)
    (rDelOk rAddOk : Bool) (s : FacadeState) : OpResult :=
  match fromType with
  | .thought =>
    match s.store.thoughts.find? (fun t => t.id == id) with
    | none => (s, .ok ())
    | some src =>
      match deleteThought id rDelOk s with
      | (s1, .error e) => (s1, .error e)
      | (s1, .ok _) => addRadiologyNote src.content ["#rad"] now rAddOk s1
  | .todo =>
    match s.store.todos.find? (fun t => t.id == id) with
    | none => (s, .ok ())
    | some src =>
      match deleteTodo id rDelOk s with
      | (s1, .error e) => (s1, .error e)
      | (s1, .ok _) => addRadiologyNote src.content ["#rad"] now rAddOk s1
  | .investment =>
    match s.store.investments.find? (fun i => i.id == id) with
    | none => (s, .ok ())
    | some src =>
      match deleteInvestment id rDelOk s with
      | (s1, .error e) => (s1, .error e)
      | (s1, .ok _) => addRadiologyNote src.content ["#rad"] now rAddOk s1

/-- dataService.cleanupOldDeletedItems: discard every tombstone strictly
older than maxAge milliseconds (default 5 times 60times1000). -/
def cleanupOldDeletedItems (maxAge : Nat) (now : Nat) (s : FacadeState) :
    FacadeState :=
  { s with deletedItems :=
      s.deletedItems.filter (fun p => ¬ (now - p.2.timestamp > maxAge)) }

end DataService

/-!
Migration coordinator (src/utils/dataMigration.ts). The remote calls it
makes are recorded as a trace; no investments appear anywhere in this
component (it imports only the Thought, Todo and RadiologyNote kinds).
The embedding below models the successful run; a rejected remote call
aborts the run and withholds the completion flag, which no claim under
study exercises.
-/

/-- One remote push emitted during migrateLocalDataToFirebase, with the
arguments the code passes. -/
inductive MigPush where
  | thought (content : String)
  | todoCreate (content : String)
  | todoFields (remoteId : Nat) (isCompleted : Bool) (priority : Priority)
      (dueDate : Option Nat)
  | radiologyNote (content : String) (tags : List String)
deriving DecidableEq, Repr

namespace DataMigration

/-- The thoughts loop: one firestoreService.addThought per local thought,
in list order. -/
def migrateThoughtsLoop : List Thought → List MigPush
  | [] => []
  | t :: ts => .thought t.content :: migrateThoughtsLoop ts

/-- The todos loop: firestoreService.addTodo with the content, then,
only when some field differs from the creation defaults (isCompleted not
false, priority not medium, or a truthy dueDate), a follow-up updateTodo
carrying completion, priority and due date, addressed to the id the
remote create returned. Remote document ids are modelled by the counter
rid threaded through the loop. -/
def migrateTodosLoop (rid : Nat) : List Todo → List MigPush
  | [] => []
  | t :: ts =>
    let follow : List MigPush :=
      if t.isCompleted ≠ false ∨ t.priority ≠ .medium ∨ t.dueDate.isSome then
        [.todoFields rid t.isCompleted t.priority t.dueDate]
      else []
    .todoCreate t.content :: (follow ++ migrateTodosLoop (rid + 1) ts)

/-- The radiology loop: one firestoreService.addRadiologyNote per local
note. -/
def migrateRadiologyLoop : List RadiologyNote → List MigPush
  | [] => []
  | n :: ns => .radiologyNote n.content n.tags :: migrateRadiologyLoop ns

/-- DataMigration.migrateLocalDataToFirebase: the three loops run in
sequence over the local store; rid0 is the first remote id the remote
store will hand out for todo creation. -/
def migrateLocalDataToFirebase (rid0 : Nat) (loc : LocalStore) : List MigPush :=
  migrateThoughtsLoop loc.thoughts
    ++ migrateTodosLoop rid0 loc.todos
    ++ migrateRadiologyLoop loc.radiologyNotes

/-- DataMigration.needsMigration. Arguments: the persisted per-user
completion flag, the local store, and the outcome of the remote reads
(Promise.all over getThoughts, getTodos, getRadiologyNotes; rejection
falls to the catch branch). Returns the decision paired with the new
value of the completion flag (markMigrationCompleted sets it in the
no-local-data and remote-has-data branches). -/
def needsMigration (flag : Bool) (loc : LocalStore)
    (remote : Except Unit (List Thought × List Todo × List RadiologyNote)) :
    Bool × Bool :=
  if flag then (false, flag)
  else
    let hasLocalData : Bool :=
      !loc.thoughts.isEmpty || !loc.todos.isEmpty || !loc.radiologyNotes.isEmpty
    if hasLocalData = false then (false, true)
    else
      match remote with
      | .ok (ts, tds, rads) =>
        let hasFirebaseData : Bool :=
          !ts.isEmpty || !tds.isEmpty || !rads.isEmpty
        if hasFirebaseData then (false, true)
        else (hasLocalData, flag)
      | .error _ => (hasLocalData, flag)

end DataMigration

/-- Freshness invariant tying the id counter to the store: every id
already present in any collection or tombstone was produced before
nextId. The facade maintains it because ids are only minted by the adds. -/
def FacadeWF (s : FacadeState) : Prop :=
  (∀ t ∈ s.store.thoughts, t.id < s.nextId) ∧
  (∀ t ∈ s.store.todos, t.id < s.nextId) ∧
  (∀ n ∈ s.store.radiologyNotes, n.id < s.nextId) ∧
  (∀ i ∈ s.store.investments, i.id < s.nextId)

instance (s : FacadeState) : Decidable (FacadeWF s) := by
  unfold FacadeWF; infer_instance

/-!
Helper lemmas on the tombstone map.
-/

theorem mapGet_mapSet_self (m : List (Nat × DeletedItem)) (k : Nat)
    (v : DeletedItem) : mapGet (mapSet m k v) k = some v := by
  simp [mapGet, mapSet, List.find?]

theorem mapGet_mapDelete_self (m : List (Nat × DeletedItem)) (k : Nat) :
    mapGet (mapDelete m k) k = none := by
  simp only [mapGet, mapDelete]
  rw [Option.map_eq_none', List.find?_eq_none]
  intro p hp
  have := (List.mem_filter.mp hp).2
  simpa using this

/-- After the sweep removed an expired tombstone, no entry for its key
remains, provided the map has (as a JS Map does) at most one entry per
key. -/
theorem mapGet_cleanup_expired (s : FacadeState) (id maxAge now : Nat)
    (item : DeletedItem)
    (hnodup : (s.deletedItems.map Prod.fst).Nodup)
    (hget : mapGet s.deletedItems id = some item)
    (hold : now - item.timestamp > maxAge) :
    mapGet (DataService.cleanupOldDeletedItems maxAge now s).deletedItems id = none := by
  obtain ⟨q, hq, hq2⟩ : ∃ q, s.deletedItems.find? (fun p => p.1 == id) = some q ∧ q.2 = item := by
    simp only [mapGet, Option.map_eq_some'] at hget
    obtain ⟨q, hq, hq2⟩ := hget
    exact ⟨q, hq, hq2⟩
  have hqmem : q ∈ s.deletedItems := List.mem_of_find?_eq_some hq
  have hqkey : q.1 = id := by
    have := List.find?_some hq
    simpa using this
  simp only [DataService.cleanupOldDeletedItems, mapGet]
  rw [Option.map_eq_none', List.find?_eq_none]
  intro p hp
  have hpmem : p ∈ s.deletedItems := (List.mem_filter.mp hp).1
  have hpkeep := (List.mem_filter.mp hp).2
  intro hpk
  have hpk1 : p.1 = id := by simpa using hpk
  have hpq : p = q :=
    List.inj_on_of_nodup_map hnodup hpmem hqmem (by rw [hpk1, hqkey])
  rw [hpq, hq2] at hpkeep
  simp only [decide_eq_true_eq] at hpkeep
  exact hpkeep hold

/-!
Claim theorems.
-/

/-- C8: for every kind, softDelete on an id that is absent from that
kind of the local store rejects with the not-found error and is atomic on
error: the returned poststate is exactly the prestate, so no collection
changed and no tombstone entry was created. -/
theorem softDelete_missing_id_atomic (id now : Nat) (rDelOk : Bool)
    (s : FacadeState) :
    (s.store.thoughts.find? (fun t => t.id == id) = none →
      DataService.softDeleteThought id now rDelOk s = (s, .error "Thought not found")) ∧
    (s.store.todos.find? (fun t => t.id == id) = none →
      DataService.softDeleteTodo id now rDelOk s = (s, .error "Todo not found")) ∧
    (s.store.radiologyNotes.find? (fun n => n.id == id) = none →
      DataService.softDeleteRadiologyNote id now rDelOk s = (s, .error "Radiology note not found")) ∧
    (s.store.investments.find? (fun i => i.id == id) = none →
      DataService.softDeleteInvestment id now rDelOk s = (s, .error "Investment not found")) := by
  refine ⟨fun h => ?_, fun h => ?_, fun h => ?_, fun h => ?_⟩ <;>
    simp [DataService.softDeleteThought, DataService.softDeleteTodo,
      DataService.softDeleteRadiologyNote, DataService.softDeleteInvestment, h]

/-- C8 witness: a concrete facade state with one investment but no
thought with id 7; softDeleteThought 7 rejects and returns the state
unchanged. -/
theorem softDelete_missing_id_atomic_witness :
    DataService.softDeleteThought 7 5 true
        ⟨⟨[], [], [], [⟨0, "btc", 1, []⟩]⟩, [], true, true, 1⟩ =
      (⟨⟨[], [], [], [⟨0, "btc", 1, []⟩]⟩, [], true, true, 1⟩,
        .error "Thought not found") :=
  (softDelete_missing_id_atomic 7 5 true _).1 (by decide)

/-- C9: each undo closure is idempotent in the strongest sense: running
it a second time (with any remote outcome) from the state its first run
produced changes nothing, because the first run consumed the tombstone
(or there was none to begin with), so the second lookup misses and the
closure is a no-op; in particular no duplicate record is inserted. -/
theorem undo_idempotent (id : Nat) (r1 r2 : Bool) (s : FacadeState) :
    DataService.undoThought id r2 (DataService.undoThought id r1 s) =
      DataService.undoThought id r1 s ∧
    DataService.undoTodo id r2 (DataService.undoTodo id r1 s) =
      DataService.undoTodo id r1 s ∧
    DataService.undoRadiologyNote id r2 (DataService.undoRadiologyNote id r1 s) =
      DataService.undoRadiologyNote id r1 s ∧
    DataService.undoInvestment id r2 (DataService.undoInvestment id r1 s) =
      DataService.undoInvestment id r1 s := by
  refine ⟨?_, ?_, ?_, ?_⟩ <;>
  · simp only [DataService.undoThought, DataService.undoTodo,
      DataService.undoRadiologyNote, DataService.undoInvestment]
    rcases h : mapGet s.deletedItems id with _ | ⟨⟨d, ts⟩⟩
    · simp [h]
    · cases d <;> simp [h, mapGet_mapDelete_self]

/-- C6: once the periodic sweep has discarded a tombstone strictly older
than the retention window, invoking the stale undo closure for that id is
a no-op for every kind: it changes no collection and re-inserts nothing.
The key-uniqueness hypothesis states what a JS Map guarantees, one entry
per key. -/
theorem cleanup_then_undo_noop (s : FacadeState) (id maxAge now : Nat)
    (r : Bool) (item : DeletedItem)
    (hnodup : (s.deletedItems.map Prod.fst).Nodup)
    (hget : mapGet s.deletedItems id = some item)
    (hold : now - item.timestamp > maxAge) :
    DataService.undoThought id r (DataService.cleanupOldDeletedItems maxAge now s) =
      DataService.cleanupOldDeletedItems maxAge now s ∧
    DataService.undoTodo id r (DataService.cleanupOldDeletedItems maxAge now s) =
      DataService.cleanupOldDeletedItems maxAge now s ∧
    DataService.undoRadiologyNote id r (DataService.cleanupOldDeletedItems maxAge now s) =
      DataService.cleanupOldDeletedItems maxAge now s ∧
    DataService.undoInvestment id r (DataService.cleanupOldDeletedItems maxAge now s) =
      DataService.cleanupOldDeletedItems maxAge now s := by
  have hnone := mapGet_cleanup_expired s id maxAge now item hnodup hget hold
  refine ⟨?_, ?_, ?_, ?_⟩ <;>
    simp [DataService.undoThought, DataService.undoTodo,
      DataService.undoRadiologyNote, DataService.undoInvestment, hnone]

/-- C6 witness: a concrete state holding one tombstone captured at
instant 10; sweeping at instant 400000 with the five-minute window
(300000 ms) discards it, and the stale undo is then a no-op. -/
theorem cleanup_then_undo_noop_witness :
    DataService.undoThought 0 true
        (DataService.cleanupOldDeletedItems 300000 400000
          ⟨LocalStore.empty, [(0, ⟨.thought ⟨0, "a", 1, []⟩, 10⟩)], false, false, 1⟩) =
      DataService.cleanupOldDeletedItems 300000 400000
        ⟨LocalStore.empty, [(0, ⟨.thought ⟨0, "a", 1, []⟩, 10⟩)], false, false, 1⟩ :=
  (cleanup_then_undo_noop _ 0 300000 400000 true ⟨.thought ⟨0, "a", 1, []⟩, 10⟩
    (by decide) (by decide) (by decide)).1

/-- C2: for every kind, softDelete of a present record followed by the
returned undo closure, invoked before any sweep on the state softDelete
left, re-inserts the captured record verbatim — same id, createdAt,
content and tags, and for todos also completion, priority, due date and
event ref, since the whole record value is restored — and consumes the
tombstone entry for that id. The remote delete knob is true so softDelete
resolves and actually hands the undo closure to the caller; the remote
outcome r of the undo itself is arbitrary (its failure is swallowed). -/
theorem softDelete_undo_roundtrip (id now : Nat) (r : Bool) (s : FacadeState) :
    (∀ R : Thought, s.store.thoughts.find? (fun t => t.id == id) = some R →
      (DataService.softDeleteThought id now true s).2 = .ok () ∧
      (DataService.undoThought id r (DataService.softDeleteThought id now true s).1).store.thoughts =
        R :: s.store.thoughts.filter (fun t => t.id ≠ id) ∧
      mapGet (DataService.undoThought id r (DataService.softDeleteThought id now true s).1).deletedItems id = none) ∧
    (∀ R : Todo, s.store.todos.find? (fun t => t.id == id) = some R →
      (DataService.softDeleteTodo id now true s).2 = .ok () ∧
      (DataService.undoTodo id r (DataService.softDeleteTodo id now true s).1).store.todos =
        R :: s.store.todos.filter (fun t => t.id ≠ id) ∧
      mapGet (DataService.undoTodo id r (DataService.softDeleteTodo id now true s).1).deletedItems id = none) ∧
    (∀ R : RadiologyNote, s.store.radiologyNotes.find? (fun n => n.id == id) = some R →
      (DataService.softDeleteRadiologyNote id now true s).2 = .ok () ∧
      (DataService.undoRadiologyNote id r (DataService.softDeleteRadiologyNote id now true s).1).store.radiologyNotes =
        R :: s.store.radiologyNotes.filter (fun n => n.id ≠ id) ∧
      mapGet (DataService.undoRadiologyNote id r (DataService.softDeleteRadiologyNote id now true s).1).deletedItems id = none) ∧
    (∀ R : Investment, s.store.investments.find? (fun i => i.id == id) = some R →
      (DataService.softDeleteInvestment id now true s).2 = .ok () ∧
      (DataService.undoInvestment id r (DataService.softDeleteInvestment id now true s).1).store.investments =
        R :: s.store.investments.filter (fun i => i.id ≠ id) ∧
      mapGet (DataService.undoInvestment id r (DataService.softDeleteInvestment id now true s).1).deletedItems id = none) := by
  refine ⟨fun R h => ?_, fun R h => ?_, fun R h => ?_, fun R h => ?_⟩ <;>
    simp [DataService.softDeleteThought, DataService.softDeleteTodo,
      DataService.softDeleteRadiologyNote, DataService.softDeleteInvestment,
      DataService.deleteThought, DataService.deleteTodo,
      DataService.deleteRadiologyNote, DataService.deleteInvestment,
      DataService.undoThought, DataService.undoTodo,
      DataService.undoRadiologyNote, DataService.undoInvestment,
      storage.addThought, storage.addTodo, storage.addRadiologyNote,
      storage.addInvestment, storage.deleteThought, storage.deleteTodo,
      storage.deleteRadiologyNote, storage.deleteInvestment,
      h, mapGet_mapSet_self, mapGet_mapDelete_self]

/-- C2 witness: concrete one-record collections; soft delete then undo
restores each record verbatim and clears its tombstone. -/
theorem softDelete_undo_roundtrip_witness :
    ((DataService.softDeleteThought 0 9 true
        ⟨⟨[⟨0, "a", 1, ["x"]⟩], [], [], []⟩, [], true, true, 1⟩).2 = .ok () ∧
      (DataService.undoThought 0 false (DataService.softDeleteThought 0 9 true
        ⟨⟨[⟨0, "a", 1, ["x"]⟩], [], [], []⟩, [], true, true, 1⟩).1).store.thoughts =
        [⟨0, "a", 1, ["x"]⟩] ∧
      mapGet (DataService.undoThought 0 false (DataService.softDeleteThought 0 9 true
        ⟨⟨[⟨0, "a", 1, ["x"]⟩], [], [], []⟩, [], true, true, 1⟩).1).deletedItems 0 = none) ∧
    ((DataService.softDeleteTodo 0 9 true
        ⟨⟨[], [⟨0, "b", true, .high, 2, some 7, some "ev"⟩], [], []⟩, [], true, true, 1⟩).2 = .ok () ∧
      (DataService.undoTodo 0 false (DataService.softDeleteTodo 0 9 true
        ⟨⟨[], [⟨0, "b", true, .high, 2, some 7, some "ev"⟩], [], []⟩, [], true, true, 1⟩).1).store.todos =
        [⟨0, "b", true, .high, 2, some 7, some "ev"⟩] ∧
      mapGet (DataService.undoTodo 0 false (DataService.softDeleteTodo 0 9 true
        ⟨⟨[], [⟨0, "b", true, .high, 2, some 7, some "ev"⟩], [], []⟩, [], true, true, 1⟩).1).deletedItems 0 = none) := by
  have h1 := (softDelete_undo_roundtrip 0 9 false
    ⟨⟨[⟨0, "a", 1, ["x"]⟩], [], [], []⟩, [], true, true, 1⟩).1
    ⟨0, "a", 1, ["x"]⟩ (by decide)
  have h2 := (softDelete_undo_roundtrip 0 9 false
    ⟨⟨[], [⟨0, "b", true, .high, 2, some 7, some "ev"⟩], [], []⟩, [], true, true, 1⟩).2.1
    ⟨0, "b", true, .high, 2, some 7, some "ev"⟩ (by decide)
  exact ⟨⟨h1.1, by simpa using h1.2.1, h1.2.2⟩, ⟨h2.1, by simpa using h2.2.1, h2.2.2⟩⟩

/-- C10: for every target kind and every declared source kind, when the
id is absent from the named source collection the conversion is a
complete no-op that resolves: the returned state is exactly the input
state, so no collection changed, nothing was deleted and nothing was
added. -/
theorem convert_missing_id_noop (id now : Nat) (rd ra g : Bool)
    (s : FacadeState) :
    (∀ ft : DataService.ThoughtSource,
      (match ft with
        | .todo => s.store.todos.find? (fun t => t.id == id) = none
        | .investment => s.store.investments.find? (fun i => i.id == id) = none
        | .radiology => s.store.radiologyNotes.find? (fun n => n.id == id) = none) →
      DataService.convertToThought id ft now rd ra s = (s, .ok ())) ∧
    (∀ ft : DataService.TodoSource,
      (match ft with
        | .thought => s.store.thoughts.find? (fun t => t.id == id) = none
        | .investment => s.store.investments.find? (fun i => i.id == id) = none
        | .radiology => s.store.radiologyNotes.find? (fun n => n.id == id) = none) →
      DataService.convertToTodo id ft now rd ra g s = (s, .ok ())) ∧
    (∀ ft : DataService.InvestmentSource,
      (match ft with
        | .thought => s.store.thoughts.find? (fun t => t.id == id) = none
        | .todo => s.store.todos.find? (fun t => t.id == id) = none
        | .radiology => s.store.radiologyNotes.find? (fun n => n.id == id) = none) →
      DataService.convertToInvestment id ft now rd ra s = (s, .ok ())) ∧
    (∀ ft : DataService.RadiologySource,
      (match ft with
        | .thought => s.store.thoughts.find? (fun t => t.id == id) = none
        | .todo => s.store.todos.find? (fun t => t.id == id) = none
        | .investment => s.store.investments.find? (fun i => i.id == id) = none) →
      DataService.convertToRadiology id ft now rd ra s = (s, .ok ())) := by
  refine ⟨fun ft h => ?_, fun ft h => ?_, fun ft h => ?_, fun ft h => ?_⟩ <;>
    cases ft <;>
    simp only [DataService.convertToThought, DataService.convertToTodo,
      DataService.convertToInvestment, DataService.convertToRadiology] <;>
    rw [h]

/-- C10 witness: on a state whose only record is one thought with id 3,
converting id 5 from any source collection into any target is the
identity and resolves. -/
theorem convert_missing_id_noop_witness :
    DataService.convertToThought 5 .todo 9 true true
        ⟨⟨[⟨3, "a", 1, []⟩], [], [], []⟩, [], true, true, 4⟩ =
      (⟨⟨[⟨3, "a", 1, []⟩], [], [], []⟩, [], true, true, 4⟩, .ok ()) ∧
    DataService.convertToTodo 5 .thought 9 true true false
        ⟨⟨[⟨3, "a", 1, []⟩], [], [], []⟩, [], true, true, 4⟩ =
      (⟨⟨[⟨3, "a", 1, []⟩], [], [], []⟩, [], true, true, 4⟩, .ok ()) ∧
    DataService.convertToInvestment 5 .radiology 9 true true
        ⟨⟨[⟨3, "a", 1, []⟩], [], [], []⟩, [], true, true, 4⟩ =
      (⟨⟨[⟨3, "a", 1, []⟩], [], [], []⟩, [], true, true, 4⟩, .ok ()) ∧
    DataService.convertToRadiology 5 .investment 9 true true
        ⟨⟨[⟨3, "a", 1, []⟩], [], [], []⟩, [], true, true, 4⟩ =
      (⟨⟨[⟨3, "a", 1, []⟩], [], [], []⟩, [], true, true, 4⟩, .ok ()) := by
  refine ⟨?_, ?_, ?_, ?_⟩
  · exact (convert_missing_id_noop 5 9 true true true _).1 .todo (by decide)
  · exact (convert_missing_id_noop 5 9 true true false _).2.1 .thought (by decide)
  · exact (convert_missing_id_noop 5 9 true true true _).2.2.1 .radiology (by decide)
  · exact (convert_missing_id_noop 5 9 true true true _).2.2.2 .investment (by decide)

/-- C5 counterexample: a todo whose content is " a " (surrounding
whitespace) is converted to a thought; the recreated thought carries the
trimmed content "a", not the source content " a ", because addThought
trims. So the new record content does not always equal the source
content. -/
theorem convert_trims_content_counterexample :
    (DataService.convertToThought 0 .todo 5 true true
        ⟨⟨[], [⟨0, " a ", false, .medium, 1, none, none⟩], [], []⟩, [], false, false, 1⟩).1.store.thoughts.map Thought.content =
      ["a"] ∧ (" a " : String) ≠ "a" := by
  refine ⟨?_, by decide⟩
  rfl

/-- C5 amended: for every target kind and source kind, converting a
record R present in the named source collection resolves and produces
exactly this state: the source collection keeps no record with id R.id,
the target collection gains exactly one new record at its head whose
content is R.content trimmed (equal to R.content whenever that has no
surrounding whitespace), whose id is the freshly minted counter value
(distinct from R.id and from every stored id by the freshness invariant)
and whose createdAt is the conversion instant, not a copy of
R.createdAt. Remote knob for the hard delete is true, matching a run in
which the saga is not aborted by a remote rejection. -/
theorem convert_moves_record_amended (id now : Nat) (ra g : Bool)
    (s : FacadeState) :
    (∀ R : Todo, s.store.todos.find? (fun t => t.id == id) = some R →
      DataService.convertToThought id .todo now true ra s =
        ({ s with
            store := { s.store with
              todos := s.store.todos.filter (fun t => t.id ≠ id),
              thoughts := ⟨s.nextId, jsTrim R.content, now, []⟩ :: s.store.thoughts },
            nextId := s.nextId + 1 }, .ok ()) ∧
      (FacadeWF s → s.nextId ≠ R.id)) ∧
    (∀ R : Investment, s.store.investments.find? (fun i => i.id == id) = some R →
      DataService.convertToThought id .investment now true ra s =
        ({ s with
            store := { s.store with
              investments := s.store.investments.filter (fun i => i.id ≠ id),
              thoughts := ⟨s.nextId, jsTrim R.content, now, []⟩ :: s.store.thoughts },
            nextId := s.nextId + 1 }, .ok ()) ∧
      (FacadeWF s → s.nextId ≠ R.id)) ∧
    (∀ R : RadiologyNote, s.store.radiologyNotes.find? (fun n => n.id == id) = some R →
      DataService.convertToThought id .radiology now true ra s =
        ({ s with
            store := { s.store with
              radiologyNotes := s.store.radiologyNotes.filter (fun n => n.id ≠ id),
              thoughts := ⟨s.nextId, jsTrim R.content, now, []⟩ :: s.store.thoughts },
            nextId := s.nextId + 1 }, .ok ()) ∧
      (FacadeWF s → s.nextId ≠ R.id)) ∧
    (∀ R : Thought, s.store.thoughts.find? (fun t => t.id == id) = some R →
      DataService.convertToTodo id .thought now true ra g s =
        ({ s with
            store := { s.store with
              thoughts := s.store.thoughts.filter (fun t => t.id ≠ id),
              todos := ⟨s.nextId, jsTrim R.content, false, .medium, now, none, none⟩ :: s.store.todos },
            nextId := s.nextId + 1 }, .ok ()) ∧
      (FacadeWF s → s.nextId ≠ R.id)) ∧
    (∀ R : Investment, s.store.investments.find? (fun i => i.id == id) = some R →
      DataService.convertToTodo id .investment now true ra g s =
        ({ s with
            store := { s.store with
              investments := s.store.investments.filter (fun i => i.id ≠ id),
              todos := ⟨s.nextId, jsTrim R.content, false, .medium, now, none, none⟩ :: s.store.todos },
            nextId := s.nextId + 1 }, .ok ()) ∧
      (FacadeWF s → s.nextId ≠ R.id)) ∧
    (∀ R : RadiologyNote, s.store.radiologyNotes.find? (fun n => n.id == id) = some R →
      DataService.convertToTodo id .radiology now true ra g s =
        ({ s with
            store := { s.store with
              radiologyNotes := s.store.radiologyNotes.filter (fun n => n.id ≠ id),
              todos := ⟨s.nextId, jsTrim R.content, false, .medium, now, none, none⟩ :: s.store.todos },
            nextId := s.nextId + 1 }, .ok ()) ∧
      (FacadeWF s → s.nextId ≠ R.id)) ∧
    (∀ R : Thought, s.store.thoughts.find? (fun t => t.id == id) = some R →
      DataService.convertToInvestment id .thought now true ra s =
        ({ s with
            store := { s.store with
              thoughts := s.store.thoughts.filter (fun t => t.id ≠ id),
              investments := ⟨s.nextId, jsTrim R.content, now, []⟩ :: s.store.investments },
            nextId := s.nextId + 1 }, .ok ()) ∧
      (FacadeWF s → s.nextId ≠ R.id)) ∧
    (∀ R : Todo, s.store.todos.find? (fun t => t.id == id) = some R →
      DataService.convertToInvestment id .todo now true ra s =
        ({ s with
            store := { s.store with
              todos := s.store.todos.filter (fun t => t.id ≠ id),
              investments := ⟨s.nextId, jsTrim R.content, now, []⟩ :: s.store.investments },
            nextId := s.nextId + 1 }, .ok ()) ∧
      (FacadeWF s → s.nextId ≠ R.id)) ∧
    (∀ R : RadiologyNote, s.store.radiologyNotes.find? (fun n => n.id == id) = some R →
      DataService.convertToInvestment id .radiology now true ra s =
        ({ s with
            store := { s.store with
              radiologyNotes := s.store.radiologyNotes.filter (fun n => n.id ≠ id),
              investments := ⟨s.nextId, jsTrim R.content, now, []⟩ :: s.store.investments },
            nextId := s.nextId + 1 }, .ok ()) ∧
      (FacadeWF s → s.nextId ≠ R.id)) ∧
    (∀ R : Thought, s.store.thoughts.find? (fun t => t.id == id) = some R →
      DataService.convertToRadiology id .thought now true ra s =
        ({ s with
            store := { s.store with
              thoughts := s.store.thoughts.filter (fun t => t.id ≠ id),
              radiologyNotes := ⟨s.nextId, jsTrim R.content, ["#rad"], now⟩ :: s.store.radiologyNotes },
            nextId := s.nextId + 1 }, .ok ()) ∧
      (FacadeWF s → s.nextId ≠ R.id)) ∧
    (∀ R : Todo, s.store.todos.find? (fun t => t.id == id) = some R →
      DataService.convertToRadiology id .todo now true ra s =
        ({ s with
            store := { s.store with
              todos := s.store.todos.filter (fun t => t.id ≠ id),
              radiologyNotes := ⟨s.nextId, jsTrim R.content, ["#rad"], now⟩ :: s.store.radiologyNotes },
            nextId := s.nextId + 1 }, .ok ()) ∧
      (FacadeWF s → s.nextId ≠ R.id)) ∧
    (∀ R : Investment, s.store.investments.find? (fun i => i.id == id) = some R →
      DataService.convertToRadiology id .investment now true ra s =
        ({ s with
            store := { s.store with
              investments := s.store.investments.filter (fun i => i.id ≠ id),
              radiologyNotes := ⟨s.nextId, jsTrim R.content, ["#rad"], now⟩ :: s.store.radiologyNotes },
            nextId := s.nextId + 1 }, .ok ()) ∧
      (FacadeWF s → s.nextId ≠ R.id)) := by
  refine ⟨?_, ?_, ?_, ?_, ?_, ?_, ?_, ?_, ?_, ?_, ?_, ?_⟩ <;>
    (intro R h; refine ⟨?_, fun hW => Nat.ne_of_gt ?_⟩)
  all_goals
    first
      | simp [DataService.convertToThought, DataService.convertToTodo,
          DataService.convertToInvestment, DataService.convertToRadiology,
          DataService.deleteThought, DataService.deleteTodo,
          DataService.deleteRadiologyNote, DataService.deleteInvestment,
          DataService.addThought, DataService.addTodo,
          DataService.addRadiologyNote, DataService.addInvestment,
          storage.addThought, storage.addTodo, storage.addRadiologyNote,
          storage.addInvestment, storage.deleteThought, storage.deleteTodo,
          storage.deleteRadiologyNote, storage.deleteInvestment,
          storage.updateTodo, h]
      | exact hW.1 _ (List.mem_of_find?_eq_some h)
      | exact hW.2.1 _ (List.mem_of_find?_eq_some h)
      | exact hW.2.2.1 _ (List.mem_of_find?_eq_some h)
      | exact hW.2.2.2 _ (List.mem_of_find?_eq_some h)

/-- C5 witness: converting the single todo of a concrete store into a
thought yields exactly the predicted state, and the minted id 4 differs
from the source id 2. -/
theorem convert_moves_record_amended_witness :
    DataService.convertToThought 2 .todo 9 true true
        ⟨⟨[], [⟨2, "call mom", false, .medium, 1, none, none⟩], [], []⟩, [], true, true, 4⟩ =
      (⟨⟨[⟨4, "call mom", 9, []⟩], [], [], []⟩, [], true, true, 5⟩, .ok ()) ∧
    (4 : Nat) ≠ 2 := by
  have h := (convert_moves_record_amended 2 9 true false
    ⟨⟨[], [⟨2, "call mom", false, .medium, 1, none, none⟩], [], []⟩, [], true, true, 4⟩).1
    ⟨2, "call mom", false, .medium, 1, none, none⟩ (by decide)
  exact ⟨h.1.trans (by rfl), h.2 (by decide)⟩

/-- C1 counterexample: with a FirestoreService attached, deleteThought
whose remote delete rejects returns a rejected promise — the failure is
not swallowed — even though the local deletion has already been applied
and is retained. The remote delete await has no try block around it. -/
theorem delete_mirror_failure_counterexample :
    DataService.deleteThought 0 false
        ⟨⟨[⟨0, "x", 1, []⟩], [], [], []⟩, [], true, true, 1⟩ =
      (⟨⟨[], [], [], []⟩, [], true, true, 1⟩,
        .error "remote deleteThought rejected") := by
  rfl

/-- C1 amended: the local write always lands and is retained, for every
operation; but only the add operations and the updates of thoughts,
radiology notes and investments swallow a remote mirror failure (their
promise always resolves). The four hard deletes and the final remote
mirror of updateTodo are awaited outside any try block, so with a
FirestoreService attached their remote failure propagates: the promise
rejects while the local mutation stays in place; with no remote failure
(or no FirestoreService) the deletes resolve. -/
theorem mirror_failure_handling_amended (content : String) (tags : List String)
    (id now : Nat) (r g : Bool) (dueDate : Option Nat) (ev : String)
    (uT : ThoughtUpdates) (uTd : TodoUpdates) (uR : RadiologyNoteUpdates)
    (uI : InvestmentUpdates) (rGet : Except Unit (Option Todo)) (s : FacadeState) :
    ((DataService.addThought content now r s).2 = .ok () ∧
      (DataService.addThought content now r s).1.store.thoughts =
        ⟨s.nextId, jsTrim content, now, []⟩ :: s.store.thoughts) ∧
    ((DataService.addTodo content dueDate now r g ev s).2 = .ok () ∧
      ∃ t : Todo, (DataService.addTodo content dueDate now r g ev s).1.store.todos =
          t :: s.store.todos ∧
        t.id = s.nextId ∧ t.content = jsTrim content ∧ t.createdAt = now ∧
        t.dueDate = dueDate) ∧
    ((DataService.addRadiologyNote content tags now r s).2 = .ok () ∧
      (DataService.addRadiologyNote content tags now r s).1.store.radiologyNotes =
        ⟨s.nextId, jsTrim content, tags, now⟩ :: s.store.radiologyNotes) ∧
    ((DataService.addInvestment content now r s).2 = .ok () ∧
      (DataService.addInvestment content now r s).1.store.investments =
        ⟨s.nextId, jsTrim content, now, []⟩ :: s.store.investments) ∧
    ((DataService.updateThought id uT r s).2 = .ok () ∧
      (DataService.updateThought id uT r s).1.store =
        storage.updateThought s.store id uT) ∧
    ((DataService.updateRadiologyNote id uR r s).2 = .ok () ∧
      (DataService.updateRadiologyNote id uR r s).1.store =
        storage.updateRadiologyNote s.store id uR) ∧
    ((DataService.updateInvestment id uI r s).2 = .ok () ∧
      (DataService.updateInvestment id uI r s).1.store =
        storage.updateInvestment s.store id uI) ∧
    ((DataService.updateTodo id uTd false rGet r s).1.store =
        storage.updateTodo s.store id uTd ∧
      (s.hasFirestore = true → r = false →
        (DataService.updateTodo id uTd false rGet r s).2 =
          .error "remote updateTodo rejected")) ∧
    ((DataService.deleteThought id r s).1.store.thoughts =
        s.store.thoughts.filter (fun t => t.id ≠ id) ∧
      (s.hasFirestore = true → r = false →
        (DataService.deleteThought id r s).2 = .error "remote deleteThought rejected") ∧
      (r = true → (DataService.deleteThought id r s).2 = .ok ())) ∧
    ((DataService.deleteTodo id r s).1.store.todos =
        s.store.todos.filter (fun t => t.id ≠ id) ∧
      (s.hasFirestore = true → r = false →
        (DataService.deleteTodo id r s).2 = .error "remote deleteTodo rejected") ∧
      (r = true → (DataService.deleteTodo id r s).2 = .ok ())) ∧
    ((DataService.deleteRadiologyNote id r s).1.store.radiologyNotes =
        s.store.radiologyNotes.filter (fun n => n.id ≠ id) ∧
      (s.hasFirestore = true → r = false →
        (DataService.deleteRadiologyNote id r s).2 = .error "remote deleteRadiologyNote rejected") ∧
      (r = true → (DataService.deleteRadiologyNote id r s).2 = .ok ())) ∧
    ((DataService.deleteInvestment id r s).1.store.investments =
        s.store.investments.filter (fun i => i.id ≠ id) ∧
      (s.hasFirestore = true → r = false →
        (DataService.deleteInvestment id r s).2 = .error "remote deleteInvestment rejected") ∧
      (r = true → (DataService.deleteInvestment id r s).2 = .ok ())) := by
  refine ⟨⟨rfl, rfl⟩, ⟨?_, ?_⟩, ⟨rfl, rfl⟩, ⟨rfl, rfl⟩, ⟨rfl, rfl⟩, ⟨rfl, rfl⟩,
    ⟨rfl, rfl⟩, ⟨?_, fun hf hr => ?_⟩, ⟨?_, fun hf hr => ?_, fun hr => ?_⟩,
    ⟨?_, fun hf hr => ?_, fun hr => ?_⟩, ⟨?_, fun hf hr => ?_, fun hr => ?_⟩,
    ⟨?_, fun hf hr => ?_, fun hr => ?_⟩⟩
  · simp only [DataService.addTodo]
    split <;> rfl
  · simp only [DataService.addTodo]
    split
    · exact ⟨applyTodoUpdates
        ⟨s.nextId, jsTrim content, false, .medium, now, dueDate, none⟩
        { googleEventId := some (some ev) },
        by simp [storage.updateTodo, storage.addTodo, updateFirst],
        rfl, rfl, rfl, rfl⟩
    · exact ⟨⟨s.nextId, jsTrim content, false, .medium, now, dueDate, none⟩,
        rfl, rfl, rfl, rfl, rfl⟩
  · simp only [DataService.updateTodo]
    split
    · split
      · cases rGet <;> rfl
      · rfl
    · rfl
  · simp [DataService.updateTodo, hf, hr]
  · simp only [DataService.deleteThought]
    split <;> rfl
  · simp [DataService.deleteThought, hf, hr]
  · simp [DataService.deleteThought, hr]
  · simp only [DataService.deleteTodo]
    split <;> rfl
  · simp [DataService.deleteTodo, hf, hr]
  · simp [DataService.deleteTodo, hr]
  · simp only [DataService.deleteRadiologyNote]
    split <;> rfl
  · simp [DataService.deleteRadiologyNote, hf, hr]
  · simp [DataService.deleteRadiologyNote, hr]
  · simp only [DataService.deleteInvestment]
    split <;> rfl
  · simp [DataService.deleteInvestment, hf, hr]
  · simp [DataService.deleteInvestment, hr]

/-- C1 witness: with a FirestoreService attached and a failing remote,
addThought still resolves and the new thought lands locally, while
deleteInvestment rejects with the local deletion applied. -/
theorem mirror_failure_handling_amended_witness :
    ((DataService.addThought "hi" 3 false
        ⟨⟨[], [], [], [⟨0, "btc", 1, []⟩]⟩, [], true, true, 1⟩).2 = .ok () ∧
      (DataService.addThought "hi" 3 false
        ⟨⟨[], [], [], [⟨0, "btc", 1, []⟩]⟩, [], true, true, 1⟩).1.store.thoughts =
        [⟨1, "hi", 3, []⟩]) ∧
    (DataService.deleteInvestment 0 false
        ⟨⟨[], [], [], [⟨0, "btc", 1, []⟩]⟩, [], true, true, 1⟩).2 =
      .error "remote deleteInvestment rejected" := by
  have h := mirror_failure_handling_amended "hi" [] 0 3 false false none ""
    {} {} {} {} (.ok none) ⟨⟨[], [], [], [⟨0, "btc", 1, []⟩]⟩, [], true, true, 1⟩
  exact ⟨⟨h.1.1, by rw [h.1.2]; rfl⟩, h.2.2.2.2.2.2.2.2.2.2.2.2.1 rfl rfl⟩

/-- Revival of an array all of whose entries are objects: every entry is
kept, none filtered. -/
theorem reviveEntries_records (rs : List RawRecord) :
    reviveEntries (rs.map RawEntry.record) = .ok (rs.map reviveRecord) := by
  induction rs with
  | nil => rfl
  | cons r rest ih => simp [reviveEntries, ih, Except.map]

/-- Revival of an array containing a null entry raises the TypeError,
wherever the null sits. -/
theorem reviveEntries_null_mem {es : List RawEntry}
    (h : RawEntry.nullEntry ∈ es) :
    reviveEntries es = .error "TypeError: Cannot read properties of null" := by
  induction es with
  | nil => cases h
  | cons e rest ih =>
    cases e with
    | nullEntry => rfl
    | record r =>
      have hrest : RawEntry.nullEntry ∈ rest := by
        rcases List.mem_cons.mp h with h1 | h1
        · exact absurd h1 (by simp)
        · exact h1
      simp [reviveEntries, ih hrest, Except.map]

/-- C4 counterexample: reading a persisted cell whose string is not JSON
raises (JSON.parse throws a SyntaxError that nothing catches); a JSON
array holding the null literal raises too (the map body reads createdAt
of null); and a JSON array whose single entry is an object missing every
required field is returned as is, one entry long, not filtered out. All
three contradict the claim that the read never raises and returns exactly
the well-formed records. -/
theorem storage_read_raises_counterexample :
    storageRaw.getThoughts .notJson =
      .error "SyntaxError: Unexpected token in JSON" ∧
    storageRaw.getThoughts (.array [RawEntry.nullEntry]) =
      .error "TypeError: Cannot read properties of null" ∧
    storageRaw.getThoughts (.array [RawEntry.record {}]) =
      .ok [({} : RawRecord)] := ⟨rfl, rfl, rfl⟩

/-- C4 amended: the local read returns the empty sequence for an absent
cell; for a persisted JSON array all of whose entries are objects it
returns every entry with only the createdAt field rewritten — the output
has the same length as the input, so malformed entries are NOT filtered
out — while a JSON array containing the null literal, persisted text that
is not JSON, and JSON that is not an array all make the read raise
instead of recovering. Same for the radiology collection read. -/
theorem storage_read_behaviour_amended (rs : List RawRecord) :
    storageRaw.getThoughts .absent = .ok [] ∧
    storageRaw.getThoughts (.array (rs.map RawEntry.record)) =
      .ok (rs.map reviveRecord) ∧
    (rs.map reviveRecord).length = rs.length ∧
    (∀ es : List RawEntry, RawEntry.nullEntry ∈ es →
      storageRaw.getThoughts (.array es) =
        .error "TypeError: Cannot read properties of null") ∧
    storageRaw.getThoughts .notJson =
      .error "SyntaxError: Unexpected token in JSON" ∧
    storageRaw.getThoughts .nonArrayJson =
      .error "TypeError: thoughts.map is not a function" ∧
    storageRaw.getRadiologyNotes .absent = .ok [] ∧
    storageRaw.getRadiologyNotes (.array (rs.map RawEntry.record)) =
      .ok (rs.map reviveRecord) ∧
    (∀ es : List RawEntry, RawEntry.nullEntry ∈ es →
      storageRaw.getRadiologyNotes (.array es) =
        .error "TypeError: Cannot read properties of null") ∧
    storageRaw.getRadiologyNotes .notJson =
      .error "SyntaxError: Unexpected token in JSON" ∧
    storageRaw.getRadiologyNotes .nonArrayJson =
      .error "TypeError: notes.map is not a function" :=
  ⟨rfl, reviveEntries_records rs, by simp,
    fun _ h => reviveEntries_null_mem h, rfl, rfl, rfl,
    reviveEntries_records rs, fun _ h => reviveEntries_null_mem h, rfl, rfl⟩

/-- C4 witness: a concrete array holding one object entry followed by a
null entry makes the read raise the TypeError. -/
theorem storage_read_behaviour_amended_witness :
    storageRaw.getThoughts (.array [RawEntry.record {}, RawEntry.nullEntry]) =
      .error "TypeError: Cannot read properties of null" :=
  (storage_read_behaviour_amended []).2.2.2.1
    [RawEntry.record {}, RawEntry.nullEntry] (by decide)

/-- C3 counterexample: a local store whose only record is one investment
is judged to need no migration — needsMigration returns false and, worse,
durably marks migration completed — and a migration run over that store
pushes nothing, although the claim requires every local record of every
one of the four kinds to be examined and pushed. -/
theorem migration_ignores_investments_counterexample :
    DataMigration.needsMigration false ⟨[], [], [], [⟨0, "btc", 1, []⟩]⟩
        (.ok ([], [], [])) = (false, true) ∧
    DataMigration.migrateLocalDataToFirebase 0 ⟨[], [], [], [⟨0, "btc", 1, []⟩]⟩ =
      [] := ⟨rfl, rfl⟩

/-- Loop-to-map characterization of the thoughts migration loop. -/
theorem migrateThoughtsLoop_eq_map (ts : List Thought) :
    DataMigration.migrateThoughtsLoop ts =
      ts.map (fun t => MigPush.thought t.content) := by
  induction ts with
  | nil => rfl
  | cons t ts ih => simp [DataMigration.migrateThoughtsLoop, ih]

/-- Loop-to-map characterization of the radiology migration loop. -/
theorem migrateRadiologyLoop_eq_map (ns : List RadiologyNote) :
    DataMigration.migrateRadiologyLoop ns =
      ns.map (fun n => MigPush.radiologyNote n.content n.tags) := by
  induction ns with
  | nil => rfl
  | cons n ns ih => simp [DataMigration.migrateRadiologyLoop, ih]

/-- C3 amended: a migration run pushes, in order, one remote create per
local thought, then the todo loop (one create per local task, followed by
an update carrying completion, priority and due date only when at least
one of them departs from the creation defaults), then one create per
tagged radiology note — and nothing else: investments are ignored both by
the push loop and by the needsMigration decision, which examines only the
persisted completion flag and the local and remote thoughts, todos and
radiology collections. -/
theorem migration_order_amended (rid : Nat) (flag : Bool) (loc : LocalStore)
    (inv : List Investment)
    (remote : Except Unit (List Thought × List Todo × List RadiologyNote)) :
    DataMigration.needsMigration flag { loc with investments := inv } remote =
      DataMigration.needsMigration flag loc remote ∧
    DataMigration.migrateLocalDataToFirebase rid { loc with investments := inv } =
      DataMigration.migrateLocalDataToFirebase rid loc ∧
    DataMigration.migrateLocalDataToFirebase rid loc =
      loc.thoughts.map (fun t => MigPush.thought t.content)
        ++ DataMigration.migrateTodosLoop rid loc.todos
        ++ loc.radiologyNotes.map (fun n => MigPush.radiologyNote n.content n.tags) ∧
    (∀ t : Todo, ∀ ts : List Todo,
      DataMigration.migrateTodosLoop rid (t :: ts) =
        MigPush.todoCreate t.content ::
          ((if t.isCompleted ≠ false ∨ t.priority ≠ .medium ∨ t.dueDate.isSome then
              [MigPush.todoFields rid t.isCompleted t.priority t.dueDate]
            else []) ++ DataMigration.migrateTodosLoop (rid + 1) ts)) := by
  refine ⟨rfl, rfl, ?_, fun t ts => rfl⟩
  simp [DataMigration.migrateLocalDataToFirebase, migrateThoughtsLoop_eq_map,
    migrateRadiologyLoop_eq_map]

/-!
Order helper lemmas for the newest-first claims.
-/

theorem descending_cons (a : Nat) (l : List Nat) (h : ∀ x ∈ l, x ≤ a)
    (hd : descending l = true) : descending (a :: l) = true := by
  cases l with
  | nil => rfl
  | cons b r =>
    have hb : b ≤ a := h b (by simp)
    simp [descending, hb]
    exact hd

theorem descending_chain (l : List Nat) :
    descending l = true ↔ List.Chain' (fun a b => b ≤ a) l := by
  induction l with
  | nil => simp [descending]
  | cons a l ih =>
    cases l with
    | nil => simp [descending]
    | cons b r =>
      rw [List.chain'_cons, ← ih]
      simp [descending]

theorem descending_sublist {l l' : List Nat} (hs : List.Sublist l' l)
    (hd : descending l = true) : descending l' = true := by
  haveI : IsTrans Nat (fun a b => b ≤ a) := ⟨fun _ _ _ h1 h2 => le_trans h2 h1⟩
  rw [descending_chain, List.chain'_iff_pairwise] at hd ⊢
  exact hd.sublist hs

theorem map_updateFirst (p : α → Bool) (f : α → α) (g : α → β)
    (hg : ∀ x, g (f x) = g x) (l : List α) :
    (updateFirst p f l).map g = l.map g := by
  induction l with
  | nil => rfl
  | cons x xs ih =>
    by_cases hp : p x <;> simp [updateFirst, hp, hg, ih]

/-- C7 counterexample: add a record at instant 1, add another at instant
2, soft delete the first and invoke the returned undo. The undo unshifts
the captured older record to the front of the collection, so the list is
no longer sorted newest-first by createdAt (it reads [1, 2]). -/
theorem undo_breaks_order_counterexample :
    descending ((DataService.undoThought 0 true
        (DataService.softDeleteThought 0 3 true
          (DataService.addThought "b" 2 true
            (DataService.addThought "a" 1 true
              ⟨LocalStore.empty, [], false, false, 0⟩).1).1).1).store.thoughts.map
      Thought.createdAt) = false := by decide

/-- C7 amended: the newest-first order of every local collection is an
invariant of the Local Store adds (provided, as the facade guarantees by
stamping createdAt with the current instant, that the inserted record is
at least as new as everything stored), of the deletes, and of the
partial-field updates (which never touch createdAt); but it is NOT an
invariant of the undo re-insertion, which unshifts the captured record
regardless of its age (see the counterexample). -/
theorem newest_first_amended :
    (∀ (s : LocalStore) (t : Thought), (∀ x ∈ s.thoughts, x.createdAt ≤ t.createdAt) →
      descending (s.thoughts.map Thought.createdAt) = true →
      descending ((storage.addThought s t).thoughts.map Thought.createdAt) = true) ∧
    (∀ (s : LocalStore) (t : Todo), (∀ x ∈ s.todos, x.createdAt ≤ t.createdAt) →
      descending (s.todos.map Todo.createdAt) = true →
      descending ((storage.addTodo s t).todos.map Todo.createdAt) = true) ∧
    (∀ (s : LocalStore) (n : RadiologyNote), (∀ x ∈ s.radiologyNotes, x.createdAt ≤ n.createdAt) →
      descending (s.radiologyNotes.map RadiologyNote.createdAt) = true →
      descending ((storage.addRadiologyNote s n).radiologyNotes.map RadiologyNote.createdAt) = true) ∧
    (∀ (s : LocalStore) (i : Investment), (∀ x ∈ s.investments, x.createdAt ≤ i.createdAt) →
      descending (s.investments.map Investment.createdAt) = true →
      descending ((storage.addInvestment s i).investments.map Investment.createdAt) = true) ∧
    (∀ (s : LocalStore) (id : Nat),
      descending (s.thoughts.map Thought.createdAt) = true →
      descending ((storage.deleteThought s id).thoughts.map Thought.createdAt) = true) ∧
    (∀ (s : LocalStore) (id : Nat),
      descending (s.todos.map Todo.createdAt) = true →
      descending ((storage.deleteTodo s id).todos.map Todo.createdAt) = true) ∧
    (∀ (s : LocalStore) (id : Nat),
      descending (s.radiologyNotes.map RadiologyNote.createdAt) = true →
      descending ((storage.deleteRadiologyNote s id).radiologyNotes.map RadiologyNote.createdAt) = true) ∧
    (∀ (s : LocalStore) (id : Nat),
      descending (s.investments.map Investment.createdAt) = true →
      descending ((storage.deleteInvestment s id).investments.map Investment.createdAt) = true) ∧
    (∀ (s : LocalStore) (id : Nat) (u : TodoUpdates),
      descending (s.todos.map Todo.createdAt) = true →
      descending ((storage.updateTodo s id u).todos.map Todo.createdAt) = true) ∧
    (∀ (s : LocalStore) (id : Nat) (u : ThoughtUpdates),
      descending (s.thoughts.map Thought.createdAt) = true →
      descending ((storage.updateThought s id u).thoughts.map Thought.createdAt) = true) ∧
    (∀ (s : LocalStore) (id : Nat) (u : RadiologyNoteUpdates),
      descending (s.radiologyNotes.map RadiologyNote.createdAt) = true →
      descending ((storage.updateRadiologyNote s id u).radiologyNotes.map RadiologyNote.createdAt) = true) ∧
    (∀ (s : LocalStore) (id : Nat) (u : InvestmentUpdates),
      descending (s.investments.map Investment.createdAt) = true →
      descending ((storage.updateInvestment s id u).investments.map Investment.createdAt) = true) := by
  refine ⟨?_, ?_, ?_, ?_, ?_, ?_, ?_, ?_, ?_, ?_, ?_, ?_⟩
  · intro s t h hd
    exact descending_cons t.createdAt (s.thoughts.map Thought.createdAt)
      (fun x hx => by obtain ⟨y, hy, rfl⟩ := List.mem_map.mp hx; exact h y hy) hd
  · intro s t h hd
    exact descending_cons t.createdAt (s.todos.map Todo.createdAt)
      (fun x hx => by obtain ⟨y, hy, rfl⟩ := List.mem_map.mp hx; exact h y hy) hd
  · intro s n h hd
    exact descending_cons n.createdAt (s.radiologyNotes.map RadiologyNote.createdAt)
      (fun x hx => by obtain ⟨y, hy, rfl⟩ := List.mem_map.mp hx; exact h y hy) hd
  · intro s i h hd
    exact descending_cons i.createdAt (s.investments.map Investment.createdAt)
      (fun x hx => by obtain ⟨y, hy, rfl⟩ := List.mem_map.mp hx; exact h y hy) hd
  · intro s id hd
    exact descending_sublist (List.Sublist.map _ (List.filter_sublist _)) hd
  · intro s id hd
    exact descending_sublist (List.Sublist.map _ (List.filter_sublist _)) hd
  · intro s id hd
    exact descending_sublist (List.Sublist.map _ (List.filter_sublist _)) hd
  · intro s id hd
    exact descending_sublist (List.Sublist.map _ (List.filter_sublist _)) hd
  · intro s id u hd
    show descending ((updateFirst (fun t => t.id == id)
        (fun t => applyTodoUpdates t u) s.todos).map Todo.createdAt) = true
    rw [map_updateFirst (fun t => t.id == id) (fun t => applyTodoUpdates t u)
      Todo.createdAt (fun x => rfl)]
    exact hd
  · intro s id u hd
    show descending ((updateFirst (fun t => t.id == id)
        (fun t => applyThoughtUpdates t u) s.thoughts).map Thought.createdAt) = true
    rw [map_updateFirst (fun t => t.id == id) (fun t => applyThoughtUpdates t u)
      Thought.createdAt (fun x => rfl)]
    exact hd
  · intro s id u hd
    show descending ((updateFirst (fun n => n.id == id)
        (fun n => applyRadiologyNoteUpdates n u) s.radiologyNotes).map RadiologyNote.createdAt) = true
    rw [map_updateFirst (fun n => n.id == id) (fun n => applyRadiologyNoteUpdates n u)
      RadiologyNote.createdAt (fun x => rfl)]
    exact hd
  · intro s id u hd
    show descending ((updateFirst (fun i => i.id == id)
        (fun i => applyInvestmentUpdates i u) s.investments).map Investment.createdAt) = true
    rw [map_updateFirst (fun i => i.id == id) (fun i => applyInvestmentUpdates i u)
      Investment.createdAt (fun x => rfl)]
    exact hd

/-- C7 witness: inserting a record stamped 2 in front of a collection
whose single record is stamped 1 keeps the list newest-first. -/
theorem newest_first_amended_witness :
    descending ((storage.addThought ⟨[⟨0, "a", 1, []⟩], [], [], []⟩
        ⟨1, "b", 2, []⟩).thoughts.map Thought.createdAt) = true :=
  newest_first_amended.1 ⟨[⟨0, "a", 1, []⟩], [], [], []⟩ ⟨1, "b", 2, []⟩
    (by decide) (by decide)

end SecondBrain
